import Mathlib

/-!
Verification of the mobile UI test-automation scaffold.

This file gives a shallow embedding of the repository's configuration
loading (src/config/config_manager.py), driver lifecycle management
(src/core/driver_manager.py), device discovery (src/core/device_manager.py),
page-object element operations (src/pages/base_page.py) and the test-runner
entry point (src/run_tests.py), and proves or refutes the specification
claims about them.

Python data is modelled by the inductive type `Value` (YAML/JSON-style
scalars, lists and string-keyed mappings, the latter as ordered association
lists, matching insertion-ordered Python dicts).  Fallible Python
operations are modelled with `Except PyError`; interactions with the
outside world (the Appium server, subprocesses) are modelled by outcome
parameters supplied to the embedded functions.
-/

namespace MobileAuto

/-- Python exception classes relevant to the embedded code paths. -/
inductive PyError where
  | typeError
  | keyError
  | attributeError
  | timeoutException
  | noSuchElement
  | webDriverError
  | genericError
  deriving DecidableEq, Repr

/-- YAML/JSON-style Python values: scalars, lists, and string-keyed dicts.
Dicts are ordered association lists, matching Python's insertion-ordered
dictionaries (keys are unique in any dict produced by Python). -/
inductive Value where
  | str : String → Value
  | int : Int → Value
  | bool : Bool → Value
  | null : Value
  | list : List Value → Value
  | dict : List (String × Value) → Value

/-- First-occurrence lookup in an association list (Python dict access). -/
def lookup (l : List (String × Value)) (k : String) : Option Value :=
  (l.find? (fun p => p.1 == k)).map (fun p => p.2)

/-- Python dict assignment d[k] = v: an existing key keeps its position and
gets the new value; a new key is appended at the end. -/
def setItemList (l : List (String × Value)) (k : String) (v : Value) :
    List (String × Value) :=
  match l with
  | [] => [(k, v)]
  | (k', v') :: rest =>
    if k' == k then (k', v) :: rest else (k', v') :: setItemList rest k v

/-- Python equality test between a string and an arbitrary value
(used by the membership test on lists). -/
def valueEqStr (k : String) (v : Value) : Bool :=
  match v with
  | .str s => k == s
  | _ => false

/-- Python membership test k in v for a string k: key test for dicts,
substring test for strings, element test for lists; TypeError otherwise. -/
def keyIn (k : String) (v : Value) : Except PyError Bool :=
  match v with
  | .dict l => .ok (l.any (fun p => p.1 == k))
  | .str s => .ok (decide (List.IsInfix k.data s.data))
  | .list l => .ok (l.any (valueEqStr k))
  | _ => .error .typeError

/-- Python subscription v[k] with a string key: dict lookup (KeyError when
the key is missing); strings and lists are indexable only by integers and
scalars are not subscriptable, so those raise TypeError. -/
def getItem (v : Value) (k : String) : Except PyError Value :=
  match v with
  | .dict l =>
    match lookup l k with
    | some x => .ok x
    | none => .error .keyError
  | _ => .error .typeError

/-- Python subscript assignment v[k] = x with a string key: dict update;
TypeError on every other kind of value. -/
def setItem (v : Value) (k : String) (x : Value) : Except PyError Value :=
  match v with
  | .dict l => .ok (.dict (setItemList l k x))
  | _ => .error .typeError

/-- ConfigManager._merge_config (src/config/config_manager.py lines 67-73),
in value semantics.  The Python code mutates base_config in place while
iterating over env_config.items(); here the updated base is threaded
through.  For each overlay pair (key, value): when value is a dict and key
occurs in base_config, the code recurses into base_config[key] (without
checking that this base value is itself a dict); otherwise it performs
base_config[key] = value.  A raised exception (TypeError from indexing or
assigning into a non-dict) aborts the merge. -/
def mergeConfig (base : Value) (ov : List (String × Value)) :
    Except PyError Value :=
  match ov with
  | [] => .ok base
  | (k, v) :: rest =>
    match v with
    | .dict m =>
      match keyIn k base with
      | .error e => .error e
      | .ok true =>
        match getItem base k with
        | .error e => .error e
        | .ok bv =>
          match mergeConfig bv m with
          | .error e => .error e
          | .ok merged =>
            match setItem base k merged with
            | .error e => .error e
            | .ok base' => mergeConfig base' rest
      | .ok false =>
        match setItem base k v with
        | .error e => .error e
        | .ok base' => mergeConfig base' rest
    | _ =>
      match setItem base k v with
      | .error e => .error e
      | .ok base' => mergeConfig base' rest
termination_by sizeOf ov
decreasing_by
  · simp_arith
  · simp_arith
  · simp_arith
  · simp_arith

mutual

/-- Well-formedness of a value: every dict occurring in it has pairwise
distinct keys (true of every value produced by Python dicts / YAML). -/
def wfv : Value → Bool
  | .dict l => wfl l
  | .list l => wfvs l
  | _ => true

/-- Well-formedness of the elements of a list value. -/
def wfvs : List Value → Bool
  | [] => true
  | v :: rest => wfv v && wfvs rest

/-- Well-formedness of a dict body: keys pairwise distinct, values
well-formed. -/
def wfl : List (String × Value) → Bool
  | [] => true
  | (k, v) :: rest =>
    !(rest.map Prod.fst).contains k && wfv v && wfl rest

end

/-! ## ConfigManager.get (src/config/config_manager.py lines 75-94) -/

/-- Python str.split with the single character separator used by
ConfigManager.get: key_path.split of a dot.  Splits a character list at
every dot, keeping empty segments (so the empty string yields one empty
segment, like Python). -/
def splitCharsOnDot : List Char → List (List Char)
  | [] => [[]]
  | c :: cs =>
    let r := splitCharsOnDot cs
    if c = '.' then [] :: r
    else
      match r with
      | [] => [[c]]
      | h :: t => (c :: h) :: t

/-- The dotted key path split into segments, as in key_path.split in
ConfigManager.get. -/
def splitKeyPath (s : String) : List String :=
  (splitCharsOnDot s.data).map (fun cs => String.mk cs)

/-- The loop body of ConfigManager.get: value = value[key] over the
segments, propagating the first raised KeyError/TypeError. -/
def lookupSeq : Value → List String → Except PyError Value
  | v, [] => .ok v
  | v, k :: ks =>
    match getItem v k with
    | .error e => .error e
    | .ok v' => lookupSeq v' ks

/-- ConfigManager.get(key_path, default): walks the merged document one
dot-separated segment at a time; the surrounding try/except returns the
default on KeyError or TypeError (the only exceptions the subscription in
the loop can raise for a string key). -/
def configGet (cfg : Value) (keyPath : String) (dflt : Value) : Value :=
  match lookupSeq cfg (splitKeyPath keyPath) with
  | .ok v => v
  | .error _ => dflt

/-- Modelled from the spec words for claim C3 (section 4.1 of the spec):
walk the document one path segment at a time, giving up (so that the
caller returns the default) as soon as a segment is missing from the
mapping being traversed or the value reached is not a string-indexable
mapping.  This is the specification-side walk that ConfigManager.get is
compared against. -/
def pathWalkSpec : Value → List String → Option Value
  | v, [] => some v
  | .dict l, k :: ks =>
    match lookup l k with
    | some v' => pathWalkSpec v' ks
    | none => none
  | _, _ :: _ => none

/-! ## Capability assembly (src/core/driver_manager.py) -/

/-- Python truthiness of a value (used by the if app_path, if udid and
if capabilities tests in DriverManager). -/
def pythonTruthy : Value → Bool
  | .str s => !(s == "")
  | .int n => !(n == 0)
  | .bool b => b
  | .null => false
  | .list l => !l.isEmpty
  | .dict l => !l.isEmpty

/-- Python dict.get(k, dflt) on a value: lookup with default on a dict,
AttributeError on anything else (scalars have no .get method). -/
def dictGet (v : Value) (k : String) (dflt : Value) : Except PyError Value :=
  match v with
  | .dict l => .ok ((lookup l k).getD dflt)
  | _ => .error .attributeError

/-- The default Android capabilities built by start_android_driver
(src/core/driver_manager.py lines 44-61) from the loaded configuration:
the android section's values with built-in fallbacks, the appium section's
new_command_timeout, and the optional app entry when app_path is truthy and
the file exists (the filesystem check is the appPathExists parameter). -/
def buildAndroidDefaultCaps (cfg : Value) (appPathExists : Bool) :
    Except PyError (List (String × Value)) := do
  let appiumConfig := configGet cfg "appium" (.dict [])
  let androidConfig := configGet cfg "android" (.dict [])
  let platformName ← dictGet androidConfig "platform_name" (.str "Android")
  let platformVersion ← dictGet androidConfig "platform_version" (.str "13")
  let deviceName ← dictGet androidConfig "device_name" (.str "Android Device")
  let automationName ← dictGet androidConfig "automation_name" (.str "UiAutomator2")
  let appPackage ← dictGet androidConfig "app_package" (.str "")
  let appActivity ← dictGet androidConfig "app_activity" (.str "")
  let noReset ← dictGet androidConfig "no_reset" (.bool true)
  let fullReset ← dictGet androidConfig "full_reset" (.bool false)
  let unicodeKeyboard ← dictGet androidConfig "unicode_keyboard" (.bool true)
  let resetKeyboard ← dictGet androidConfig "reset_keyboard" (.bool true)
  let newCommandTimeout ← dictGet appiumConfig "new_command_timeout" (.int 300)
  let caps := [("platformName", platformName),
    ("platformVersion", platformVersion),
    ("deviceName", deviceName),
    ("automationName", automationName),
    ("appPackage", appPackage),
    ("appActivity", appActivity),
    ("noReset", noReset),
    ("fullReset", fullReset),
    ("unicodeKeyboard", unicodeKeyboard),
    ("resetKeyboard", resetKeyboard),
    ("newCommandTimeout", newCommandTimeout)]
  let appPath ← dictGet androidConfig "app_path" .null
  if pythonTruthy appPath && appPathExists then
    return setItemList caps "app" appPath
  else
    return caps

/-- The default iOS capabilities built by start_ios_driver
(src/core/driver_manager.py lines 108-127), including the optional udid
and app entries. -/
def buildIosDefaultCaps (cfg : Value) (appPathExists : Bool) :
    Except PyError (List (String × Value)) := do
  let appiumConfig := configGet cfg "appium" (.dict [])
  let iosConfig := configGet cfg "ios" (.dict [])
  let platformName ← dictGet iosConfig "platform_name" (.str "iOS")
  let platformVersion ← dictGet iosConfig "platform_version" (.str "16.0")
  let deviceName ← dictGet iosConfig "device_name" (.str "iPhone")
  let automationName ← dictGet iosConfig "automation_name" (.str "XCUITest")
  let bundleId ← dictGet iosConfig "bundle_id" (.str "")
  let noReset ← dictGet iosConfig "no_reset" (.bool true)
  let fullReset ← dictGet iosConfig "full_reset" (.bool false)
  let newCommandTimeout ← dictGet appiumConfig "new_command_timeout" (.int 300)
  let caps := [("platformName", platformName),
    ("platformVersion", platformVersion),
    ("deviceName", deviceName),
    ("automationName", automationName),
    ("bundleId", bundleId),
    ("noReset", noReset),
    ("fullReset", fullReset),
    ("newCommandTimeout", newCommandTimeout)]
  let udid ← dictGet iosConfig "udid" .null
  let caps := if pythonTruthy udid then setItemList caps "udid" udid else caps
  let appPath ← dictGet iosConfig "app_path" .null
  if pythonTruthy appPath && appPathExists then
    return setItemList caps "app" appPath
  else
    return caps

/-- Python dict.update(ov): each pair of ov in order overwrites or appends
into the receiver. -/
def updateCaps (caps ov : List (String × Value)) : List (String × Value) :=
  ov.foldl (fun acc p => setItemList acc p.1 p.2) caps

/-- The if capabilities: default_caps.update(capabilities) step of the
start methods: None and the empty dict are falsy and skip the update. -/
def applyOverrides (caps : List (String × Value))
    (overrides : Option (List (String × Value))) : List (String × Value) :=
  match overrides with
  | none => caps
  | some ov => if ov.isEmpty then caps else updateCaps caps ov

/-- The capability set actually sent by start_android_driver: defaults
(built-ins layered under config values) then caller overrides. -/
def assembleAndroidCaps (cfg : Value) (appPathExists : Bool)
    (overrides : Option (List (String × Value))) :
    Except PyError (List (String × Value)) := do
  let caps ← buildAndroidDefaultCaps cfg appPathExists
  return applyOverrides caps overrides

/-- The capability set actually sent by start_ios_driver. -/
def assembleIosCaps (cfg : Value) (appPathExists : Bool)
    (overrides : Option (List (String × Value))) :
    Except PyError (List (String × Value)) := do
  let caps ← buildIosDefaultCaps cfg appPathExists
  return applyOverrides caps overrides

/-! ## Driver lifecycle (src/core/driver_manager.py) -/

/-- The mutable fields of DriverManager: the stored session handle
(self.driver, sessions modelled by opaque numeric ids) and the stored
explicit-wait object (self.wait, keyed by the session it wraps). -/
structure DMState where
  driver : Option Nat
  wait : Option Nat
  deriving DecidableEq, Repr

/-- The outcome of the webdriver.Remote(server_url, caps) call, supplied
by the environment: either session creation raises, or it returns a fresh
session handle. -/
inductive RemoteOutcome where
  | fail : PyError → RemoteOutcome
  | created : Nat → RemoteOutcome
  deriving DecidableEq, Repr

/-- start_android_driver (src/core/driver_manager.py lines 27-89).
Returns the post-call manager state together with the returned handle or
the re-raised exception.  Failure points, in source order: capability
assembly (dict.get on a non-dict config section raises AttributeError),
the host/port reads for the server URL, the webdriver.Remote call
(remote), the implicit_wait config read, the driver.implicitly_wait call
(iwCall), and the explicit_wait config read.  The enclosing try/except
logs and re-raises: the error value is propagated unchanged, and no
assignment to self.driver or self.wait is undone. -/
def startAndroidDriver (s : DMState) (cfg : Value) (appPathExists : Bool)
    (overrides : Option (List (String × Value))) (remote : RemoteOutcome)
    (iwCall : Option PyError) : DMState × Except PyError Nat :=
  match assembleAndroidCaps cfg appPathExists overrides with
  | .error e => (s, .error e)
  | .ok _ =>
    match dictGet (configGet cfg "appium" (.dict [])) "host" (.str "127.0.0.1") with
    | .error e => (s, .error e)
    | .ok _ =>
      match dictGet (configGet cfg "appium" (.dict [])) "port" (.int 4723) with
      | .error e => (s, .error e)
      | .ok _ =>
        match remote with
        | .fail e => (s, .error e)
        | .created h =>
          match dictGet (configGet cfg "test" (.dict [])) "implicit_wait" (.int 10) with
          | .error e => ({ s with driver := some h }, .error e)
          | .ok _ =>
            match iwCall with
            | some e => ({ s with driver := some h }, .error e)
            | none =>
              match dictGet (configGet cfg "test" (.dict [])) "explicit_wait" (.int 30) with
              | .error e => ({ s with driver := some h }, .error e)
              | .ok _ => ({ driver := some h, wait := some h }, .ok h)

/-- start_ios_driver (src/core/driver_manager.py lines 91-155); identical
session-lifecycle structure with the iOS capability builder. -/
def startIosDriver (s : DMState) (cfg : Value) (appPathExists : Bool)
    (overrides : Option (List (String × Value))) (remote : RemoteOutcome)
    (iwCall : Option PyError) : DMState × Except PyError Nat :=
  match assembleIosCaps cfg appPathExists overrides with
  | .error e => (s, .error e)
  | .ok _ =>
    match dictGet (configGet cfg "appium" (.dict [])) "host" (.str "127.0.0.1") with
    | .error e => (s, .error e)
    | .ok _ =>
      match dictGet (configGet cfg "appium" (.dict [])) "port" (.int 4723) with
      | .error e => (s, .error e)
      | .ok _ =>
        match remote with
        | .fail e => (s, .error e)
        | .created h =>
          match dictGet (configGet cfg "test" (.dict [])) "implicit_wait" (.int 10) with
          | .error e => ({ s with driver := some h }, .error e)
          | .ok _ =>
            match iwCall with
            | some e => ({ s with driver := some h }, .error e)
            | none =>
              match dictGet (configGet cfg "test" (.dict [])) "explicit_wait" (.int 30) with
              | .error e => ({ s with driver := some h }, .error e)
              | .ok _ => ({ driver := some h, wait := some h }, .ok h)

/-- quit_driver (src/core/driver_manager.py lines 157-167).  When a
session handle is stored, driver.quit() runs in a try block whose except
clause swallows and logs any exception (quitCall), and the finally clause
sets self.driver and self.wait to None.  When no handle is stored the body
is skipped entirely. -/
def quitDriver (s : DMState) (quitCall : Option PyError) : DMState :=
  match s.driver with
  | some _ =>
    match quitCall with
    | _ => { s with driver := none, wait := none }
  | none => s

/-- is_driver_alive (src/core/driver_manager.py lines 195-205): False when
no session handle is stored; otherwise probes self.driver.page_source
(outcome pageSource) and converts any exception to False. -/
def isDriverAlive (s : DMState) (pageSource : Except PyError String) : Bool :=
  match s.driver with
  | none => false
  | some _ =>
    match pageSource with
    | .ok _ => true
    | .error _ => false

/-! ## Device discovery (src/core/device_manager.py) -/

/-- The outcome of a subprocess.run call with check=True: normal
completion carrying (a parse of) captured stdout, CalledProcessError on a
nonzero exit code, or FileNotFoundError for a missing executable. -/
inductive SubprocResult (α : Type) where
  | ok : α → SubprocResult α
  | calledProcessError : SubprocResult α
  | fileNotFound : SubprocResult α
  deriving DecidableEq, Repr

/-- A device record as assembled by DeviceManager: the ordered key/value
pairs of the Python dict literal. -/
abbrev DeviceRecord := List (String × String)

/-- get_android_devices (src/core/device_manager.py lines 18-54): runs
adb devices; on success parses stdout line by line (skipping the header
line, taking tab-separated id/status pairs); CalledProcessError and
FileNotFoundError are caught, logged and converted to an empty list. -/
def getAndroidDevices (adb : SubprocResult String) : List DeviceRecord :=
  match adb with
  | .ok stdout =>
    let lines := (stdout.trim.splitOn "\n").drop 1
    lines.foldl (fun devices line =>
      if !(line.trim == "") then
        let parts := line.splitOn "\t"
        if parts.length ≥ 2 then
          devices ++ [[("device_id", ((parts.get? 0).getD "").trim),
            ("status", ((parts.get? 1).getD "").trim),
            ("platform", "Android")]]
        else devices
      else devices) []
  | .calledProcessError => []
  | .fileNotFound => []

/-- One simulator entry of the JSON device list printed by
xcrun simctl list devices. -/
structure SimDevice where
  udid : String
  name : String
  state : String
  deriving DecidableEq, Repr

/-- The simulator-collection loop of get_ios_devices
(src/core/device_manager.py lines 74-83): one record per booted simulator
in the runtime-keyed device lists of the decoded JSON. -/
def bootedSimRecords (data : List (String × List SimDevice)) :
    List DeviceRecord :=
  data.foldl (fun devices rt =>
    rt.2.foldl (fun devices d =>
      if d.state == "Booted" then
        devices ++ [[("device_id", d.udid),
          ("device_name", d.name),
          ("status", d.state),
          ("platform", "iOS"),
          ("runtime", rt.1)]]
      else devices) devices) []

/-- get_ios_devices (src/core/device_manager.py lines 56-112).  The xcrun
outcome carries the runtime-keyed device lists of the decoded JSON (the
json.loads step itself is outside the modelled failure modes); booted
simulators are collected, then the inner try around idevice_id appends
physical devices, with CalledProcessError and FileNotFoundError from
idevice_id merely logged as a warning.  CalledProcessError and
FileNotFoundError from xcrun are caught by the outer handlers and
converted to an empty list. -/
def getIosDevices (xcrun : SubprocResult (List (String × List SimDevice)))
    (idevice : SubprocResult String) : List DeviceRecord :=
  match xcrun with
  | .ok data =>
    let sims := bootedSimRecords data
    match idevice with
    | .ok out =>
      (out.trim.splitOn "\n").foldl (fun devices line =>
        if !(line.trim == "") then
          devices ++ [[("device_id", line.trim),
            ("device_name", "Real Device"),
            ("status", "connected"),
            ("platform", "iOS"),
            ("runtime", "Real Device")]]
        else devices) sims
    | .calledProcessError => sims
    | .fileNotFound => sims
  | .calledProcessError => []
  | .fileNotFound => []

/-! ## Page object element operations (src/pages/base_page.py) -/

/-- Element handles are opaque ids. -/
abbrev Elem := Nat

/-- BasePage.find_element (lines 47-72): waits for presence of the
element; the underlying wait outcome either yields an element or raises
(TimeoutException on timeout, anything else on driver failure).  Both
except clauses return None. -/
def findElement (waitOutcome : Except PyError Elem) : Option Elem :=
  match waitOutcome with
  | .ok e => some e
  | .error _ => none

/-- BasePage.find_elements (lines 74-99): same shape, returning the empty
list from both except clauses. -/
def findElements (waitOutcome : Except PyError (List Elem)) : List Elem :=
  match waitOutcome with
  | .ok es => es
  | .error _ => []

/-- BasePage.wait_for_element_visible (lines 101-123): True when the wait
succeeds, False on TimeoutException; any other exception is uncaught and
propagates to the caller. -/
def waitForElementVisible (w : Except PyError Unit) : Except PyError Bool :=
  match w with
  | .ok _ => .ok true
  | .error .timeoutException => .ok false
  | .error e => .error e

/-- BasePage.wait_for_element_clickable (lines 125-147): same shape as the
visibility wait. -/
def waitForElementClickable (w : Except PyError Unit) : Except PyError Bool :=
  match w with
  | .ok _ => .ok true
  | .error .timeoutException => .ok false
  | .error e => .error e

/-- BasePage.is_element_present (lines 149-163): calls
driver.find_element directly and catches only NoSuchElementException;
every other exception propagates. -/
def isElementPresent (find : Except PyError Elem) : Except PyError Bool :=
  match find with
  | .ok _ => .ok true
  | .error .noSuchElement => .ok false
  | .error e => .error e

/-- BasePage.is_element_visible (lines 165-179): find_element then
is_displayed, catching only NoSuchElementException around both. -/
def isElementVisible (find : Except PyError Elem)
    (displayed : Except PyError Bool) : Except PyError Bool :=
  match find with
  | .ok _ =>
    match displayed with
    | .ok b => .ok b
    | .error .noSuchElement => .ok false
    | .error e => .error e
  | .error .noSuchElement => .ok false
  | .error e => .error e

/-- BasePage.click (lines 183-207): inside a try/except Exception that
returns False, waits for clickability (w), finds the element (find), and
clicks it (act).  A falsy wait result or a None element yields False; a
raised exception anywhere in the body is caught and yields False. -/
def click (w : Except PyError Unit) (find : Except PyError Elem)
    (act : Except PyError Unit) : Bool :=
  match waitForElementClickable w with
  | .error _ => false
  | .ok false => false
  | .ok true =>
    match findElement find with
    | none => false
    | some _ =>
      match act with
      | .ok _ => true
      | .error _ => false

/-- BasePage.send_keys (lines 209-236): find the element, optionally
clear it, send the text; any exception is caught and yields False, a
missing element yields False. -/
def sendKeys (find : Except PyError Elem) (clearFirst : Bool)
    (clearCall : Except PyError Unit) (sendCall : Except PyError Unit) :
    Bool :=
  match findElement find with
  | none => false
  | some _ =>
    if clearFirst then
      match clearCall with
      | .error _ => false
      | .ok _ =>
        match sendCall with
        | .ok _ => true
        | .error _ => false
    else
      match sendCall with
      | .ok _ => true
      | .error _ => false

/-- BasePage.get_text (lines 238-260): the element's text, the empty
string when the element is missing or any exception is raised. -/
def getText (find : Except PyError Elem) (textCall : Except PyError String) :
    String :=
  match findElement find with
  | none => ""
  | some _ =>
    match textCall with
    | .ok t => t
    | .error _ => ""

/-- BasePage.get_attribute (lines 262-285): the attribute value with the
Python value-or-empty coercion (get_attribute may return None), the empty
string when the element is missing or any exception is raised. -/
def getAttribute (find : Except PyError Elem)
    (attrCall : Except PyError (Option String)) : String :=
  match findElement find with
  | none => ""
  | some _ =>
    match attrCall with
    | .ok (some s) => s
    | .ok none => ""
    | .error _ => ""

/-- BasePage.swipe (lines 289-304): performs driver.swipe inside a
try/except that logs; the method returns None either way, so the escaping
exception of a call is always none. -/
def swipeEscapes (call : Except PyError Unit) : Option PyError :=
  match call with
  | .ok _ => none
  | .error _ => none

/-- BasePage.scroll_down (lines 306-329): reads the window size (outcome
getSize, carrying width and height) and delegates to swipe, all inside a
try/except that logs; the method returns None either way (and swipe
already swallows its own errors), so the escaping exception is always
none. -/
def scrollDownEscapes (getSize : Except PyError (Nat × Nat)) :
    Option PyError :=
  match getSize with
  | .ok _ => none
  | .error _ => none

/-- BasePage.scroll_up (lines 331-354): same shape as scroll_down. -/
def scrollUpEscapes (getSize : Except PyError (Nat × Nat)) :
    Option PyError :=
  match getSize with
  | .ok _ => none
  | .error _ => none

/-- BasePage.scroll_to_element (lines 356-376): up to max_scrolls cycles
of is_element_present followed by scroll_down and a sleep; it has no
try/except of its own, so an exception escaping is_element_present (any
exception other than NoSuchElementException from the underlying find)
propagates to the caller.  The finds list gives the underlying
driver.find_element outcome of each cycle, one entry per loop iteration
(so its length is max_scrolls); the interleaved scroll_down calls swallow
their own errors and do not affect control flow.  Returns True as soon as
a cycle finds the element, False once the iterations are exhausted. -/
def scrollToElement : List (Except PyError Elem) → Except PyError Bool
  | [] => .ok false
  | f :: rest =>
    match isElementPresent f with
    | .error e => .error e
    | .ok true => .ok true
    | .ok false => scrollToElement rest

/-! ## Test runner exit codes (src/run_tests.py) -/

/-- The fate of the pytest subprocess.run invocation inside run_tests:
completion with a return code, a KeyboardInterrupt raised in the try
block, or any other exception raised in the try block. -/
inductive PytestRun where
  | completed : Int → PytestRun
  | interrupted : PytestRun
  | raised : PytestRun
  deriving DecidableEq, Repr

/-- run_tests (src/run_tests.py lines 18-97), reduced to its exit-code
behaviour: the pytest return code is passed through unchanged (the report
generation steps swallow their own errors and return booleans), a
KeyboardInterrupt maps to 130 and any other exception to 1. -/
def runTests (run : PytestRun) : Int :=
  match run with
  | .completed rc => rc
  | .interrupted => 130
  | .raised => 1

/-- main (src/run_tests.py lines 100-188), reduced to its exit-code
behaviour: the clean-reports and serve-report modes return 0 without
running tests; otherwise the run_tests result is returned unchanged. -/
def mainExitCode (cleanReports serveReport : Bool) (run : PytestRun) : Int :=
  if cleanReports then 0
  else if serveReport then 0
  else runTests run

/-! ## Association list lemmas -/

theorem lookup_cons (k' : String) (v' : Value) (rest : List (String × Value))
    (k : String) :
    lookup ((k', v') :: rest) k =
      if (k' == k) = true then some v' else lookup rest k := by
  by_cases h : (k' == k) = true <;> simp [lookup, List.find?, h]

theorem lookup_setItemList_self (l : List (String × Value)) (k : String)
    (v : Value) : lookup (setItemList l k v) k = some v := by
  induction l with
  | nil => simp [setItemList, lookup, List.find?]
  | cons p rest ih =>
    obtain ⟨k', v'⟩ := p
    by_cases h : (k' == k) = true
    · simp [setItemList, h, lookup_cons]
    · simp [setItemList, h, lookup_cons, ih]

theorem lookup_setItemList_ne (l : List (String × Value)) (k : String)
    (v : Value) (k₁ : String) (h : k₁ ≠ k) :
    lookup (setItemList l k v) k₁ = lookup l k₁ := by
  induction l with
  | nil =>
    have hk : (k == k₁) = false := by
      simp [beq_iff_eq]
      exact fun hkk => h hkk.symm
    simp [setItemList, lookup, List.find?, hk]
  | cons p rest ih =>
    obtain ⟨k', v'⟩ := p
    by_cases hk : (k' == k) = true
    · have hkeq : k' = k := by simpa [beq_iff_eq] using hk
      have hne : (k' == k₁) = false := by
        simp [beq_iff_eq, hkeq]
        exact fun hkk => h hkk.symm
      simp [setItemList, hk, lookup_cons, hne]
    · simp [setItemList, hk, lookup_cons, ih]

theorem setItemList_eq_self (l : List (String × Value)) (k : String)
    (v : Value) : lookup l k = some v → setItemList l k v = l := by
  induction l with
  | nil => intro h; simp [lookup, List.find?] at h
  | cons p rest ih =>
    obtain ⟨k', v'⟩ := p
    intro h
    by_cases hk : (k' == k) = true
    · have : v' = v := by simpa [lookup_cons, hk] using h
      simp [setItemList, hk, this]
    · have h' : lookup rest k = some v := by simpa [lookup_cons, hk] using h
      simp [setItemList, hk, ih h']

theorem setItemList_of_lookup_none (l : List (String × Value)) (k : String)
    (v : Value) : lookup l k = none → setItemList l k v = l ++ [(k, v)] := by
  induction l with
  | nil => intro _; simp [setItemList]
  | cons p rest ih =>
    obtain ⟨k', v'⟩ := p
    intro h
    by_cases hk : (k' == k) = true
    · simp [lookup_cons, hk] at h
    · have h' : lookup rest k = none := by simpa [lookup_cons, hk] using h
      simp [setItemList, hk, ih h']

theorem anyKey_eq_isSome (l : List (String × Value)) (k : String) :
    (l.any fun p => p.1 == k) = (lookup l k).isSome := by
  induction l with
  | nil => simp [lookup]
  | cons p rest ih =>
    obtain ⟨k', v'⟩ := p
    by_cases hk : (k' == k) = true
    · simp [lookup_cons, hk]
    · simp [lookup_cons, hk, ih]

theorem lookup_eq_none_of_not_mem (l : List (String × Value)) (k : String) :
    k ∉ l.map Prod.fst → lookup l k = none := by
  induction l with
  | nil => intro _; simp [lookup]
  | cons p rest ih =>
    obtain ⟨k', v'⟩ := p
    intro h
    rw [List.map_cons, List.mem_cons] at h
    push_neg at h
    have hk : (k' == k) = false := by
      simp [beq_iff_eq]
      exact fun hkk => h.1 hkk.symm
    simp [lookup_cons, hk, ih h.2]

theorem lookup_updateCaps_not_mem (ov : List (String × Value)) :
    ∀ caps k, k ∉ ov.map Prod.fst →
      lookup (updateCaps caps ov) k = lookup caps k := by
  induction ov with
  | nil => intro caps k _; simp [updateCaps]
  | cons p rest ih =>
    obtain ⟨k', v'⟩ := p
    intro caps k h
    rw [List.map_cons, List.mem_cons] at h
    push_neg at h
    have hstep : updateCaps caps ((k', v') :: rest) =
        updateCaps (setItemList caps k' v') rest := rfl
    rw [hstep, ih _ _ h.2, lookup_setItemList_ne _ _ _ _ (fun hkk => h.1 hkk)]

theorem lookup_updateCaps_mem (ov : List (String × Value)) :
    ∀ caps k v, (ov.map Prod.fst).Nodup → lookup ov k = some v →
      lookup (updateCaps caps ov) k = some v := by
  induction ov with
  | nil => intro caps k v _ h; simp [lookup] at h
  | cons p rest ih =>
    obtain ⟨k', v'⟩ := p
    intro caps k v hnd h
    rw [List.map_cons, List.nodup_cons] at hnd
    have hstep : updateCaps caps ((k', v') :: rest) =
        updateCaps (setItemList caps k' v') rest := rfl
    by_cases hk : (k' == k) = true
    · have hkeq : k' = k := by simpa [beq_iff_eq] using hk
      have hv : v' = v := by simpa [lookup_cons, hk] using h
      have hnm : k ∉ rest.map Prod.fst := hkeq ▸ hnd.1
      rw [hstep, lookup_updateCaps_not_mem _ _ _ hnm, hkeq,
        lookup_setItemList_self, hv]
    · have h' : lookup rest k = some v := by simpa [lookup_cons, hk] using h
      rw [hstep, ih _ _ _ hnd.2 h']

/-! ## Dotted-path lookup lemmas -/

theorem pathWalkSpec_eq_toOption : ∀ (segs : List String) (v : Value),
    pathWalkSpec v segs = (lookupSeq v segs).toOption := by
  intro segs
  induction segs with
  | nil => intro v; simp [pathWalkSpec, lookupSeq, Except.toOption]
  | cons k ks ih =>
    intro v
    cases v with
    | dict l =>
      cases hlk : lookup l k with
      | some x => simp [pathWalkSpec, lookupSeq, getItem, hlk, ih]
      | none => simp [pathWalkSpec, lookupSeq, getItem, hlk, Except.toOption]
    | str s => simp [pathWalkSpec, lookupSeq, getItem, Except.toOption]
    | int n => simp [pathWalkSpec, lookupSeq, getItem, Except.toOption]
    | bool b => simp [pathWalkSpec, lookupSeq, getItem, Except.toOption]
    | null => simp [pathWalkSpec, lookupSeq, getItem, Except.toOption]
    | list l => simp [pathWalkSpec, lookupSeq, getItem, Except.toOption]

/-! ## Well-formedness lemmas -/

theorem wfl_cons_iff (k : String) (v : Value) (rest : List (String × Value)) :
    wfl ((k, v) :: rest) = true ↔
      (k ∉ rest.map Prod.fst ∧ wfv v = true ∧ wfl rest = true) := by
  rw [wfl]
  simp [List.elem_iff]
  exact and_assoc

theorem wfv_dict_eq (l : List (String × Value)) : wfv (.dict l) = wfl l := by
  rw [wfv]

theorem wfl_nodup : ∀ l : List (String × Value),
    wfl l = true → (l.map Prod.fst).Nodup := by
  intro l
  induction l with
  | nil => intro _; simp
  | cons p rest ih =>
    obtain ⟨k, v⟩ := p
    intro h
    rw [wfl_cons_iff] at h
    rw [List.map_cons, List.nodup_cons]
    exact ⟨h.1, ih h.2.2⟩

/-! ## Merge lemmas -/

theorem value_dict_or_not (v : Value) :
    (∃ m, v = .dict m) ∨ (∀ m, v ≠ .dict m) := by
  cases v
  case dict m => exact Or.inl ⟨m, rfl⟩
  all_goals exact Or.inr (fun _ h => nomatch h)

theorem lookup_append (l₁ l₂ : List (String × Value)) (k : String) :
    lookup (l₁ ++ l₂) k =
      match lookup l₁ k with
      | some v => some v
      | none => lookup l₂ k := by
  induction l₁ with
  | nil => simp [lookup]
  | cons p rest ih =>
    obtain ⟨k', v'⟩ := p
    by_cases hk : (k' == k) = true
    · simp [List.cons_append, lookup_cons, hk]
    · simp [List.cons_append, lookup_cons, hk, ih]

theorem mergeConfig_cons_dict (base : Value) (k : String)
    (m rest : List (String × Value)) :
    mergeConfig base ((k, .dict m) :: rest) =
      match keyIn k base with
      | .error e => .error e
      | .ok true =>
        match getItem base k with
        | .error e => .error e
        | .ok bv =>
          match mergeConfig bv m with
          | .error e => .error e
          | .ok merged =>
            match setItem base k merged with
            | .error e => .error e
            | .ok base' => mergeConfig base' rest
      | .ok false =>
        match setItem base k (.dict m) with
        | .error e => .error e
        | .ok base' => mergeConfig base' rest := by
  rw [mergeConfig.eq_def]

theorem mergeConfig_cons_scalar (base : Value) (k : String) (v : Value)
    (rest : List (String × Value)) (hv : ∀ m, v ≠ .dict m) :
    mergeConfig base ((k, v) :: rest) =
      match setItem base k v with
      | .error e => .error e
      | .ok base' => mergeConfig base' rest := by
  rw [mergeConfig.eq_def]
  cases v
  case dict m => exact absurd rfl (hv m)
  all_goals rfl

theorem mergeConfig_dict_cons_scalar (l : List (String × Value)) (k : String)
    (v : Value) (rest : List (String × Value)) (hv : ∀ m, v ≠ .dict m) :
    mergeConfig (.dict l) ((k, v) :: rest) =
      mergeConfig (.dict (setItemList l k v)) rest := by
  rw [mergeConfig_cons_scalar _ _ _ _ hv]
  rfl

theorem mergeConfig_dict_cons_dict_mem (l : List (String × Value))
    (k : String) (m rest : List (String × Value)) (bv : Value)
    (hbv : lookup l k = some bv) :
    mergeConfig (.dict l) ((k, .dict m) :: rest) =
      match mergeConfig bv m with
      | .error e => .error e
      | .ok merged => mergeConfig (.dict (setItemList l k merged)) rest := by
  rw [mergeConfig_cons_dict]
  have hany : (l.any fun p => p.1 == k) = true := by
    rw [anyKey_eq_isSome, hbv]; rfl
  simp only [keyIn, hany, getItem, hbv, setItem]

theorem mergeConfig_dict_cons_dict_not_mem (l : List (String × Value))
    (k : String) (m rest : List (String × Value))
    (hbv : lookup l k = none) :
    mergeConfig (.dict l) ((k, .dict m) :: rest) =
      mergeConfig (.dict (setItemList l k (.dict m))) rest := by
  rw [mergeConfig_cons_dict]
  have hany : (l.any fun p => p.1 == k) = false := by
    rw [anyKey_eq_isSome, hbv]; rfl
  simp only [keyIn, hany, setItem]

theorem mergeConfig_ok_dict : ∀ (ov l : List (String × Value)) (m : Value),
    mergeConfig (.dict l) ov = .ok m → ∃ l', m = .dict l' := by
  intro ov
  induction ov with
  | nil =>
    intro l m h
    rw [mergeConfig.eq_1] at h
    cases h
    exact ⟨l, rfl⟩
  | cons p rest ih =>
    obtain ⟨k, v⟩ := p
    intro l m h
    rcases value_dict_or_not v with ⟨mv, rfl⟩ | hv
    · rcases hlk : lookup l k with _ | bv
      · rw [mergeConfig_dict_cons_dict_not_mem _ _ _ _ hlk] at h
        exact ih _ _ h
      · rw [mergeConfig_dict_cons_dict_mem _ _ _ _ _ hlk] at h
        cases hmv : mergeConfig bv mv with
        | error e => rw [hmv] at h; cases h
        | ok w =>
          rw [hmv] at h
          exact ih _ _ h
    · rw [mergeConfig_dict_cons_scalar _ _ _ _ hv] at h
      exact ih _ _ h

theorem mergeConfig_lookup_not_mem :
    ∀ (ov l : List (String × Value)) (m : Value) (k₁ : String),
      k₁ ∉ ov.map Prod.fst → mergeConfig (.dict l) ov = .ok m →
      ∃ l', m = .dict l' ∧ lookup l' k₁ = lookup l k₁ := by
  intro ov
  induction ov with
  | nil =>
    intro l m k₁ _ h
    rw [mergeConfig.eq_1] at h
    cases h
    exact ⟨l, rfl, rfl⟩
  | cons p rest ih =>
    obtain ⟨k, v⟩ := p
    intro l m k₁ hk₁ h
    rw [List.map_cons, List.mem_cons] at hk₁
    push_neg at hk₁
    have hne : k₁ ≠ k := hk₁.1
    rcases value_dict_or_not v with ⟨mv, rfl⟩ | hv
    · rcases hlk : lookup l k with _ | bv
      · rw [mergeConfig_dict_cons_dict_not_mem _ _ _ _ hlk] at h
        obtain ⟨l', hm, hpr⟩ := ih _ _ _ hk₁.2 h
        exact ⟨l', hm, by rw [hpr, lookup_setItemList_ne _ _ _ _ hne]⟩
      · rw [mergeConfig_dict_cons_dict_mem _ _ _ _ _ hlk] at h
        cases hmv : mergeConfig bv mv with
        | error e => rw [hmv] at h; cases h
        | ok w =>
          rw [hmv] at h
          obtain ⟨l', hm, hpr⟩ := ih _ _ _ hk₁.2 h
          exact ⟨l', hm, by rw [hpr, lookup_setItemList_ne _ _ _ _ hne]⟩
    · rw [mergeConfig_dict_cons_scalar _ _ _ _ hv] at h
      obtain ⟨l', hm, hpr⟩ := ih _ _ _ hk₁.2 h
      exact ⟨l', hm, by rw [hpr, lookup_setItemList_ne _ _ _ _ hne]⟩

theorem mergeConfig_lookup_found :
    ∀ (ov l : List (String × Value)) (m : Value) (k : String) (v : Value),
      (ov.map Prod.fst).Nodup → lookup ov k = some v →
      mergeConfig (.dict l) ov = .ok m →
      ∃ l', m = .dict l' ∧
        ((∀ mv, v ≠ .dict mv) → lookup l' k = some v) ∧
        (∀ mv, v = .dict mv →
          ((lookup l k = none ∧ lookup l' k = some (.dict mv)) ∨
           (∃ bv w, lookup l k = some bv ∧ mergeConfig bv mv = .ok w ∧
             lookup l' k = some w))) := by
  intro ov
  induction ov with
  | nil =>
    intro l m k v _ hkv _
    simp [lookup] at hkv
  | cons p rest ih =>
    obtain ⟨k₀, v₀⟩ := p
    intro l m k v hnd hkv h
    rw [List.map_cons, List.nodup_cons] at hnd
    by_cases hk : (k₀ == k) = true
    · have hkeq : k₀ = k := by simpa [beq_iff_eq] using hk
      subst hkeq
      have hveq : v₀ = v := by simpa [lookup_cons] using hkv
      subst hveq
      rcases value_dict_or_not v₀ with ⟨mv, rfl⟩ | hv
      · rcases hlk : lookup l k₀ with _ | bv
        · rw [mergeConfig_dict_cons_dict_not_mem _ _ _ _ hlk] at h
          obtain ⟨l', hm, hpr⟩ := mergeConfig_lookup_not_mem _ _ _ _ hnd.1 h
          refine ⟨l', hm, fun hsc => absurd rfl (hsc mv), fun mv' hmv' => ?_⟩
          cases hmv'
          exact Or.inl ⟨rfl, by rw [hpr, lookup_setItemList_self]⟩
        · rw [mergeConfig_dict_cons_dict_mem _ _ _ _ _ hlk] at h
          cases hmv : mergeConfig bv mv with
          | error e => rw [hmv] at h; cases h
          | ok w =>
            rw [hmv] at h
            obtain ⟨l', hm, hpr⟩ := mergeConfig_lookup_not_mem _ _ _ _ hnd.1 h
            refine ⟨l', hm, fun hsc => absurd rfl (hsc mv), fun mv' hmv' => ?_⟩
            cases hmv'
            exact Or.inr ⟨bv, w, rfl, hmv,
              by rw [hpr, lookup_setItemList_self]⟩
      · rw [mergeConfig_dict_cons_scalar _ _ _ _ hv] at h
        obtain ⟨l', hm, hpr⟩ := mergeConfig_lookup_not_mem _ _ _ _ hnd.1 h
        refine ⟨l', hm, fun _ => by rw [hpr, lookup_setItemList_self],
          fun mv' hmv' => absurd hmv' (hv mv')⟩
    · have hkne : k ≠ k₀ := by
        intro hkk
        rw [hkk] at hk
        simp at hk
      have hkv' : lookup rest k = some v := by
        simpa [lookup_cons, hk] using hkv
      rcases value_dict_or_not v₀ with ⟨mv₀, rfl⟩ | hv₀
      · rcases hlk : lookup l k₀ with _ | bv₀
        · rw [mergeConfig_dict_cons_dict_not_mem _ _ _ _ hlk] at h
          obtain ⟨l', hm, h1, h2⟩ := ih _ _ _ _ hnd.2 hkv' h
          refine ⟨l', hm, h1, fun mv' hmv' => ?_⟩
          have := h2 mv' hmv'
          rwa [lookup_setItemList_ne _ _ _ _ hkne] at this
        · rw [mergeConfig_dict_cons_dict_mem _ _ _ _ _ hlk] at h
          cases hmv : mergeConfig bv₀ mv₀ with
          | error e => rw [hmv] at h; cases h
          | ok w =>
            rw [hmv] at h
            obtain ⟨l', hm, h1, h2⟩ := ih _ _ _ _ hnd.2 hkv' h
            refine ⟨l', hm, h1, fun mv' hmv' => ?_⟩
            have := h2 mv' hmv'
            rwa [lookup_setItemList_ne _ _ _ _ hkne] at this
      · rw [mergeConfig_dict_cons_scalar _ _ _ _ hv₀] at h
        obtain ⟨l', hm, h1, h2⟩ := ih _ _ _ _ hnd.2 hkv' h
        refine ⟨l', hm, h1, fun mv' hmv' => ?_⟩
        have := h2 mv' hmv'
        rwa [lookup_setItemList_ne _ _ _ _ hkne] at this

theorem mergeConfig_scalar_base_error (bv : Value)
    (mv : List (String × Value)) (hbv : ∀ d, bv ≠ .dict d) (hmv : mv ≠ []) :
    mergeConfig bv mv = .error .typeError := by
  cases mv with
  | nil => exact absurd rfl hmv
  | cons p rest =>
    obtain ⟨k₀, v₀⟩ := p
    rcases value_dict_or_not v₀ with ⟨m₀, rfl⟩ | hv₀
    · rw [mergeConfig_cons_dict]
      cases bv with
      | dict d => exact absurd rfl (hbv d)
      | str s =>
        cases hd : decide (List.IsInfix k₀.data s.data) <;>
          simp [keyIn, hd, getItem, setItem]
      | list xs =>
        cases hd : xs.any (valueEqStr k₀) <;>
          simp [keyIn, hd, getItem, setItem]
      | int n => rfl
      | bool b => rfl
      | null => rfl
    · rw [mergeConfig_cons_scalar _ _ _ _ hv₀]
      cases bv with
      | dict d => exact absurd rfl (hbv d)
      | str s => rfl
      | list xs => rfl
      | int n => rfl
      | bool b => rfl
      | null => rfl

theorem mergeConfig_base_dict_of_ok_cons (base : Value) (k : String)
    (v : Value) (rest : List (String × Value)) (m : Value)
    (h : mergeConfig base ((k, v) :: rest) = .ok m) :
    ∃ l, base = .dict l := by
  rcases value_dict_or_not base with ⟨l, rfl⟩ | hb
  · exact ⟨l, rfl⟩
  · rw [mergeConfig_scalar_base_error base ((k, v) :: rest) hb
      (by simp)] at h
    cases h

theorem mergeConfig_fresh_append :
    ∀ (ov acc : List (String × Value)),
      (ov.map Prod.fst).Nodup →
      (∀ k ∈ ov.map Prod.fst, lookup acc k = none) →
      mergeConfig (.dict acc) ov = .ok (.dict (acc ++ ov)) := by
  intro ov
  induction ov with
  | nil => intro acc _ _; rw [mergeConfig.eq_1]; simp
  | cons p rest ih =>
    obtain ⟨k, v⟩ := p
    intro acc hnd hfresh
    rw [List.map_cons, List.nodup_cons] at hnd
    have hacck : lookup acc k = none := hfresh k (by simp)
    have hfresh' : ∀ k' ∈ rest.map Prod.fst,
        lookup (acc ++ [(k, v)]) k' = none := by
      intro k' hk'
      rw [lookup_append]
      have h1 : lookup acc k' = none := hfresh k' (by simp [hk'])
      have h2 : lookup [(k, v)] k' = none := by
        have : (k == k') = false := by
          simp [beq_iff_eq]
          intro hkk
          exact hnd.1 (hkk ▸ hk')
        simp [lookup_cons, this, lookup]
      rw [h1, h2]
    have happ : acc ++ (k, v) :: rest = (acc ++ [(k, v)]) ++ rest := by simp
    rcases value_dict_or_not v with ⟨mv, rfl⟩ | hv
    · rw [mergeConfig_dict_cons_dict_not_mem _ _ _ _ hacck,
        setItemList_of_lookup_none _ _ _ hacck, happ]
      exact ih _ hnd.2 hfresh'
    · rw [mergeConfig_dict_cons_scalar _ _ _ _ hv,
        setItemList_of_lookup_none _ _ _ hacck, happ]
      exact ih _ hnd.2 hfresh'

theorem mergeConfig_idem_aux : ∀ (n : Nat) (ov : List (String × Value)),
    sizeOf ov < n → ∀ (base m : Value), wfl ov = true →
      mergeConfig base ov = .ok m → mergeConfig m ov = .ok m := by
  intro n
  induction n with
  | zero => intro ov h; exact absurd h (Nat.not_lt_zero _)
  | succ n ih =>
    intro ov hsz base m hwf hm
    cases ov with
    | nil =>
      rw [mergeConfig.eq_1] at hm
      cases hm
      rw [mergeConfig.eq_1]
    | cons p rest =>
      obtain ⟨k, v⟩ := p
      obtain ⟨l, rfl⟩ := mergeConfig_base_dict_of_ok_cons _ _ _ _ _ hm
      have hwf' := (wfl_cons_iff k v rest).mp hwf
      have hszrest : sizeOf rest < n := by
        have h1 : sizeOf rest < sizeOf ((k, v) :: rest) := by
          simp_arith
        omega
      rcases value_dict_or_not v with ⟨mv, rfl⟩ | hv
      · have hszmv : sizeOf mv < n := by
          have h1 : sizeOf mv < sizeOf ((k, Value.dict mv) :: rest) := by
            simp_arith
          omega
        have hwfmv : wfl mv = true := by
          have := hwf'.2.1
          rwa [wfv_dict_eq] at this
        rcases hlk : lookup l k with _ | bv
        · rw [mergeConfig_dict_cons_dict_not_mem _ _ _ _ hlk] at hm
          obtain ⟨l', hm', hpr⟩ :=
            mergeConfig_lookup_not_mem _ _ _ _ hwf'.1 hm
          subst hm'
          have hl'k : lookup l' k = some (.dict mv) := by
            rw [hpr, lookup_setItemList_self]
          rw [mergeConfig_dict_cons_dict_mem _ _ _ _ _ hl'k]
          have hself0 : mergeConfig (.dict []) mv = .ok (.dict mv) := by
            have := mergeConfig_fresh_append mv [] (wfl_nodup mv hwfmv)
              (fun k' _ => rfl)
            simpa using this
          have hself : mergeConfig (.dict mv) mv = .ok (.dict mv) :=
            ih mv hszmv _ _ hwfmv hself0
          simp only [hself]
          rw [setItemList_eq_self _ _ _ hl'k]
          exact ih rest hszrest _ _ hwf'.2.2 hm
        · rw [mergeConfig_dict_cons_dict_mem _ _ _ _ _ hlk] at hm
          cases hmv : mergeConfig bv mv with
          | error e => rw [hmv] at hm; cases hm
          | ok w =>
            rw [hmv] at hm
            obtain ⟨l', hm', hpr⟩ :=
              mergeConfig_lookup_not_mem _ _ _ _ hwf'.1 hm
            subst hm'
            have hl'k : lookup l' k = some w := by
              rw [hpr, lookup_setItemList_self]
            rw [mergeConfig_dict_cons_dict_mem _ _ _ _ _ hl'k]
            have hwidem : mergeConfig w mv = .ok w :=
              ih mv hszmv bv w hwfmv hmv
            simp only [hwidem]
            rw [setItemList_eq_self _ _ _ hl'k]
            exact ih rest hszrest _ _ hwf'.2.2 hm
      · rw [mergeConfig_dict_cons_scalar _ _ _ _ hv] at hm
        obtain ⟨l', hm', hpr⟩ :=
          mergeConfig_lookup_not_mem _ _ _ _ hwf'.1 hm
        subst hm'
        have hl'k : lookup l' k = some v := by
          rw [hpr, lookup_setItemList_self]
        rw [mergeConfig_dict_cons_scalar _ _ _ _ hv,
          setItemList_eq_self _ _ _ hl'k]
        exact ih rest hszrest _ _ hwf'.2.2 hm

/-! ## Driver lifecycle lemmas -/

theorem startAndroidDriver_cases (s : DMState) (cfg : Value) (apx : Bool)
    (ov : Option (List (String × Value))) (rem : RemoteOutcome)
    (iw : Option PyError) :
    (∃ e, startAndroidDriver s cfg apx ov rem iw = (s, .error e)) ∨
    (∃ h e, rem = .created h ∧
      startAndroidDriver s cfg apx ov rem iw =
        ({ s with driver := some h }, .error e)) ∨
    (∃ h, rem = .created h ∧
      startAndroidDriver s cfg apx ov rem iw =
        ({ driver := some h, wait := some h }, .ok h)) := by
  rw [startAndroidDriver.eq_def]
  cases assembleAndroidCaps cfg apx ov with
  | error e => exact Or.inl ⟨e, rfl⟩
  | ok caps =>
    cases dictGet (configGet cfg "appium" (.dict [])) "host"
        (.str "127.0.0.1") with
    | error e => exact Or.inl ⟨e, rfl⟩
    | ok hv =>
      cases dictGet (configGet cfg "appium" (.dict [])) "port" (.int 4723) with
      | error e => exact Or.inl ⟨e, rfl⟩
      | ok pv =>
        cases rem with
        | fail e => exact Or.inl ⟨e, rfl⟩
        | created h =>
          cases dictGet (configGet cfg "test" (.dict [])) "implicit_wait"
              (.int 10) with
          | error e => exact Or.inr (Or.inl ⟨h, e, rfl, rfl⟩)
          | ok iv =>
            cases iw with
            | some e => exact Or.inr (Or.inl ⟨h, e, rfl, rfl⟩)
            | none =>
              cases dictGet (configGet cfg "test" (.dict [])) "explicit_wait"
                  (.int 30) with
              | error e => exact Or.inr (Or.inl ⟨h, e, rfl, rfl⟩)
              | ok ev => exact Or.inr (Or.inr ⟨h, rfl, rfl⟩)

theorem startIosDriver_cases (s : DMState) (cfg : Value) (apx : Bool)
    (ov : Option (List (String × Value))) (rem : RemoteOutcome)
    (iw : Option PyError) :
    (∃ e, startIosDriver s cfg apx ov rem iw = (s, .error e)) ∨
    (∃ h e, rem = .created h ∧
      startIosDriver s cfg apx ov rem iw =
        ({ s with driver := some h }, .error e)) ∨
    (∃ h, rem = .created h ∧
      startIosDriver s cfg apx ov rem iw =
        ({ driver := some h, wait := some h }, .ok h)) := by
  rw [startIosDriver.eq_def]
  cases assembleIosCaps cfg apx ov with
  | error e => exact Or.inl ⟨e, rfl⟩
  | ok caps =>
    cases dictGet (configGet cfg "appium" (.dict [])) "host"
        (.str "127.0.0.1") with
    | error e => exact Or.inl ⟨e, rfl⟩
    | ok hv =>
      cases dictGet (configGet cfg "appium" (.dict [])) "port" (.int 4723) with
      | error e => exact Or.inl ⟨e, rfl⟩
      | ok pv =>
        cases rem with
        | fail e => exact Or.inl ⟨e, rfl⟩
        | created h =>
          cases dictGet (configGet cfg "test" (.dict [])) "implicit_wait"
              (.int 10) with
          | error e => exact Or.inr (Or.inl ⟨h, e, rfl, rfl⟩)
          | ok iv =>
            cases iw with
            | some e => exact Or.inr (Or.inl ⟨h, e, rfl, rfl⟩)
            | none =>
              cases dictGet (configGet cfg "test" (.dict [])) "explicit_wait"
                  (.int 30) with
              | error e => exact Or.inr (Or.inl ⟨h, e, rfl, rfl⟩)
              | ok ev => exact Or.inr (Or.inr ⟨h, rfl, rfl⟩)

/-- The reachable-state invariant of DriverManager: a stored wait object
implies a stored driver handle (equivalently, no driver means no wait). -/
def dmInv (s : DMState) : Prop := s.driver = none → s.wait = none

theorem dmInv_init : dmInv ⟨none, none⟩ := fun _ => rfl

theorem dmInv_startAndroidDriver (s : DMState) (cfg : Value) (apx : Bool)
    (ov : Option (List (String × Value))) (rem : RemoteOutcome)
    (iw : Option PyError) (hs : dmInv s) :
    dmInv (startAndroidDriver s cfg apx ov rem iw).1 := by
  rcases startAndroidDriver_cases s cfg apx ov rem iw with
    ⟨e, heq⟩ | ⟨h, e, _, heq⟩ | ⟨h, _, heq⟩ <;> rw [heq]
  · exact hs
  · intro hd; cases hd
  · intro hd; cases hd

theorem dmInv_startIosDriver (s : DMState) (cfg : Value) (apx : Bool)
    (ov : Option (List (String × Value))) (rem : RemoteOutcome)
    (iw : Option PyError) (hs : dmInv s) :
    dmInv (startIosDriver s cfg apx ov rem iw).1 := by
  rcases startIosDriver_cases s cfg apx ov rem iw with
    ⟨e, heq⟩ | ⟨h, e, _, heq⟩ | ⟨h, _, heq⟩ <;> rw [heq]
  · exact hs
  · intro hd; cases hd
  · intro hd; cases hd

theorem dmInv_quitDriver (s : DMState) (quitCall : Option PyError)
    (hs : dmInv s) : dmInv (quitDriver s quitCall) := by
  obtain ⟨d, w⟩ := s
  cases d with
  | none => exact hs
  | some h => intro _; rfl

/-! ## Claim theorems -/

/-- Claim C3: ConfigManager.get(key_path, default) walks the merged
configuration one dot-separated segment at a time and returns the default
exactly when the specification-side walk (give up when a segment is
missing or the traversed value is not a string-indexable mapping) yields
nothing, and the reached value otherwise; in particular, on any loaded
configuration that does not contain the path, get with key path
missing.path and default the string X returns the string X. -/
theorem C3_config_get_walks_path :
    (∀ (cfg : Value) (p : String) (d : Value),
      configGet cfg p d = (pathWalkSpec cfg (splitKeyPath p)).getD d) ∧
    (∀ (cfg : Value) (d : Value),
      pathWalkSpec cfg (splitKeyPath "missing.path") = none →
        configGet cfg "missing.path" d = d) := by
  have hmain : ∀ (cfg : Value) (p : String) (d : Value),
      configGet cfg p d = (pathWalkSpec cfg (splitKeyPath p)).getD d := by
    intro cfg p d
    rw [configGet, pathWalkSpec_eq_toOption]
    cases lookupSeq cfg (splitKeyPath p) with
    | ok v => simp [Except.toOption]
    | error e => simp [Except.toOption]
  refine ⟨hmain, ?_⟩
  intro cfg d h
  rw [hmain cfg "missing.path" d, h]
  rfl

/-- Witness for C3 at a concrete configuration that lacks the path. -/
theorem C3_config_get_walks_path_witness :
    configGet (.dict [("appium", .dict [("host", .str "127.0.0.1")])])
      "missing.path" (.str "X") = .str "X" :=
  C3_config_get_walks_path.2
    (.dict [("appium", .dict [("host", .str "127.0.0.1")])]) (.str "X")
    (by rw [pathWalkSpec_eq_toOption]; rfl)

/-- Claim C4 counterexample: a start_android_driver call that creates the
remote session and then fails while configuring the implicit wait logs and
re-raises, but leaves the freshly created session handle stored — the
manager is not at NO_SESSION after the failure. -/
theorem C4_start_failure_counterexample :
    (startAndroidDriver ⟨none, none⟩ (.dict []) false none (.created 7)
        (some .webDriverError)).1.driver = some 7 ∧
    (startAndroidDriver ⟨none, none⟩ (.dict []) false none (.created 7)
        (some .webDriverError)).2 = .error .webDriverError := by
  exact ⟨rfl, rfl⟩

/-- Claim C4 as amended: every failing start_android_driver or
start_ios_driver call logs and re-raises the exception, but the stored
handles are simply whatever they were at the failure point: a failure at
or before session creation leaves the manager state unchanged (so NO
active session only when there was none before), while a failure after
session creation leaves the new session handle stored with the previous
wait object; only a fully successful call installs both the handle and
its wait. -/
theorem C4_start_failure_amended :
    ∀ (s : DMState) (cfg : Value) (apx : Bool)
      (ov : Option (List (String × Value))) (rem : RemoteOutcome)
      (iw : Option PyError),
      ((∀ e, (startAndroidDriver s cfg apx ov rem iw).2 = .error e →
        (startAndroidDriver s cfg apx ov rem iw).1 = s ∨
        ∃ h, rem = .created h ∧
          (startAndroidDriver s cfg apx ov rem iw).1 =
            { driver := some h, wait := s.wait }) ∧
      (∀ h, (startAndroidDriver s cfg apx ov rem iw).2 = .ok h →
        (startAndroidDriver s cfg apx ov rem iw).1 =
          { driver := some h, wait := some h })) ∧
      ((∀ e, (startIosDriver s cfg apx ov rem iw).2 = .error e →
        (startIosDriver s cfg apx ov rem iw).1 = s ∨
        ∃ h, rem = .created h ∧
          (startIosDriver s cfg apx ov rem iw).1 =
            { driver := some h, wait := s.wait }) ∧
      (∀ h, (startIosDriver s cfg apx ov rem iw).2 = .ok h →
        (startIosDriver s cfg apx ov rem iw).1 =
          { driver := some h, wait := some h })) := by
  intro s cfg apx ov rem iw
  constructor
  · rcases startAndroidDriver_cases s cfg apx ov rem iw with
      ⟨e, heq⟩ | ⟨h, e, hrem, heq⟩ | ⟨h, hrem, heq⟩
    · constructor
      · intro e' _; exact Or.inl (by rw [heq])
      · intro h' hok; rw [heq] at hok; cases hok
    · constructor
      · intro e' _; exact Or.inr ⟨h, hrem, by rw [heq]⟩
      · intro h' hok; rw [heq] at hok; cases hok
    · constructor
      · intro e' herr; rw [heq] at herr; cases herr
      · intro h' hok
        rw [heq] at hok ⊢
        cases hok
        rfl
  · rcases startIosDriver_cases s cfg apx ov rem iw with
      ⟨e, heq⟩ | ⟨h, e, hrem, heq⟩ | ⟨h, hrem, heq⟩
    · constructor
      · intro e' _; exact Or.inl (by rw [heq])
      · intro h' hok; rw [heq] at hok; cases hok
    · constructor
      · intro e' _; exact Or.inr ⟨h, hrem, by rw [heq]⟩
      · intro h' hok; rw [heq] at hok; cases hok
    · constructor
      · intro e' herr; rw [heq] at herr; cases herr
      · intro h' hok
        rw [heq] at hok ⊢
        cases hok
        rfl

/-- Witness for C4 at a failing session creation from the no-session
state: the state is unchanged (still no session). -/
theorem C4_start_failure_amended_witness :
    (startAndroidDriver ⟨none, none⟩ (.dict []) false none
        (.fail .webDriverError) none).1 = (⟨none, none⟩ : DMState) ∨
    ∃ h, RemoteOutcome.fail .webDriverError = .created h ∧
      (startAndroidDriver ⟨none, none⟩ (.dict []) false none
          (.fail .webDriverError) none).1 =
        { driver := some h, wait := (⟨none, none⟩ : DMState).wait } :=
  ((C4_start_failure_amended ⟨none, none⟩ (.dict []) false none
    (.fail .webDriverError) none).1.1 .webDriverError (by rfl))

/-- Claim C6: is_driver_alive returns true exactly when a session handle
is stored and the page-source probe succeeds; hence it is false whenever
no session has been started and whenever the probe raises. -/
theorem C6_is_driver_alive_characterisation :
    ∀ (s : DMState) (pageSource : Except PyError String),
      isDriverAlive s pageSource = true ↔
        ((∃ h, s.driver = some h) ∧ ∃ src, pageSource = .ok src) := by
  intro s ps
  obtain ⟨d, w⟩ := s
  cases d with
  | none => simp [isDriverAlive]
  | some h =>
    cases ps with
    | ok src => simp [isDriverAlive]
    | error e => simp [isDriverAlive]

/-- Claim C9 counterexample: pytest exit codes other than 0 and 1 are
passed through unchanged, so an invocation whose pytest subprocess exits
with 5 (no tests collected) produces the exit code 5, which is none of 0,
1 or 130. -/
theorem C9_exit_codes_counterexample :
    mainExitCode false false (.completed 5) = 5 ∧
      (5 : Int) ≠ 0 ∧ (5 : Int) ≠ 1 ∧ (5 : Int) ≠ 130 := by
  refine ⟨rfl, by decide, by decide, by decide⟩

/-- Claim C9 as amended: the run_tests entry point exits with 130 on user
interrupt, 1 on a generic error while launching the run, 0 in the
clean-reports and serve-report maintenance modes, and otherwise passes the
pytest subprocess exit code through unchanged (0 success, 1 test failures,
but also any other code pytest produces, such as 2-5). -/
theorem C9_exit_codes_amended :
    (∀ rc : Int, runTests (.completed rc) = rc) ∧
    runTests .interrupted = 130 ∧
    runTests .raised = 1 ∧
    (∀ (sr : Bool) (run : PytestRun), mainExitCode true sr run = 0) ∧
    (∀ run : PytestRun, mainExitCode false true run = 0) ∧
    (∀ run : PytestRun, mainExitCode false false run = runTests run) := by
  refine ⟨fun rc => rfl, rfl, rfl, fun sr run => rfl, fun run => rfl,
    fun run => rfl⟩

/-- Claim C10: after any call to quit_driver, from any state the driver
manager can actually be in (the stored wait object is only ever non-None
alongside a stored driver handle), both the stored driver handle and the
stored wait object are None — even when the underlying quit call raises —
and is_driver_alive returns false whatever the probe would do. -/
theorem C10_quit_driver_resets :
    ∀ (s : DMState) (quitCall : Option PyError)
      (pageSource : Except PyError String),
      (s.driver = none → s.wait = none) →
        (quitDriver s quitCall).driver = none ∧
        (quitDriver s quitCall).wait = none ∧
        isDriverAlive (quitDriver s quitCall) pageSource = false := by
  intro s qc ps hinv
  obtain ⟨d, w⟩ := s
  cases d with
  | none =>
    have hw : w = none := hinv rfl
    subst hw
    exact ⟨rfl, rfl, rfl⟩
  | some h => exact ⟨rfl, rfl, rfl⟩

/-- Claim C7 counterexample: when xcrun finds a booted simulator but the
idevice_id executable is missing, get_ios_devices does not return an empty
list — it returns the simulator record — refuting the claim that a missing
external tool always yields an empty result. -/
theorem C7_device_discovery_counterexample :
    getIosDevices (.ok [("iOS 17.0", [⟨"UDID-1", "iPhone 15", "Booted"⟩])])
        .fileNotFound =
      [[("device_id", "UDID-1"), ("device_name", "iPhone 15"),
        ("status", "Booted"), ("platform", "iOS"),
        ("runtime", "iOS 17.0")]] ∧
    getIosDevices (.ok [("iOS 17.0", [⟨"UDID-1", "iPhone 15", "Booted"⟩])])
        .fileNotFound ≠ ([] : List DeviceRecord) := by
  refine ⟨rfl, by decide⟩

/-- Claim C7 as amended: a missing executable or nonzero exit never lets
an exception escape a discovery call; a failure of the primary tool (adb
for Android, xcrun for iOS) yields an empty list, while a failure of the
secondary iOS tool (idevice_id) merely omits physical devices and still
returns the booted simulators found by xcrun. -/
theorem C7_device_discovery_amended :
    getAndroidDevices .calledProcessError = [] ∧
    getAndroidDevices .fileNotFound = [] ∧
    (∀ idevice : SubprocResult String,
      getIosDevices .calledProcessError idevice = [] ∧
      getIosDevices .fileNotFound idevice = []) ∧
    (∀ data : List (String × List SimDevice),
      getIosDevices (.ok data) .calledProcessError = bootedSimRecords data ∧
      getIosDevices (.ok data) .fileNotFound = bootedSimRecords data) :=
  ⟨rfl, rfl, fun _ => ⟨rfl, rfl⟩, fun _ => ⟨rfl, rfl⟩⟩

/-- Claim C1 counterexample: merging overlay with a mapping value over a
base whose value at that key is a scalar does not replace the base value —
the code recurses into the scalar (the isinstance test only checks the
overlay side) and raises a TypeError, so merging overlay with a under
value the mapping of b to 2 into base with a bound to 1 errors instead of
producing the overlay mapping. -/
theorem C1_merge_config_counterexample :
    mergeConfig (.dict [("a", .int 1)]) [("a", .dict [("b", .int 2)])] =
      .error .typeError ∧
    mergeConfig (.dict [("a", .int 1)]) [("a", .dict [("b", .int 2)])] ≠
      .ok (.dict [("a", .dict [("b", .int 2)])]) := by
  have h : mergeConfig (.dict [("a", .int 1)]) [("a", .dict [("b", .int 2)])]
      = .error .typeError := by
    simp [mergeConfig, keyIn, getItem, setItem, lookup, setItemList]
  refine ⟨h, ?_⟩
  rw [h]
  intro hc
  cases hc

/-- Claim C1 as amended: _merge_config merges depth-first, except that the
recursion condition only inspects the overlay side: for each overlay key,
if the overlay value is a mapping AND the key is present in the base, the
merge recurses into the base value whether or not that value is a mapping
— when it is not a mapping (and the overlay sub-mapping is non-empty) the
merge raises a TypeError instead of replacing it.  In every other case the
overlay value replaces the base value; the result is right-biased on
scalar conflicts, base keys not named in the overlay are unchanged, and
the appium example behaves as the spec describes (port 4724, host
127.0.0.1 after selecting the dev overlay). -/
theorem C1_merge_config_amended :
    (∀ (ov l : List (String × Value)) (m : Value) (k₁ : String),
      k₁ ∉ ov.map Prod.fst → mergeConfig (.dict l) ov = .ok m →
      ∃ l', m = .dict l' ∧ lookup l' k₁ = lookup l k₁) ∧
    (∀ (ov l : List (String × Value)) (m : Value) (k : String) (v : Value),
      (ov.map Prod.fst).Nodup → lookup ov k = some v →
      mergeConfig (.dict l) ov = .ok m →
      ∃ l', m = .dict l' ∧
        ((∀ mv, v ≠ .dict mv) → lookup l' k = some v) ∧
        (∀ mv, v = .dict mv →
          ((lookup l k = none ∧ lookup l' k = some (.dict mv)) ∨
           (∃ bv w, lookup l k = some bv ∧ mergeConfig bv mv = .ok w ∧
             lookup l' k = some w)))) ∧
    (∀ (bv : Value) (mv : List (String × Value)),
      (∀ d, bv ≠ .dict d) → mv ≠ [] →
      mergeConfig bv mv = .error .typeError) ∧
    (getItem (.dict [("dev", .dict [("appium", .dict [("port", .int 4724)])])])
        "dev" = .ok (.dict [("appium", .dict [("port", .int 4724)])]) ∧
      mergeConfig
          (.dict [("appium",
            .dict [("host", .str "127.0.0.1"), ("port", .int 4723)])])
          [("appium", .dict [("port", .int 4724)])] =
        .ok (.dict [("appium",
          .dict [("host", .str "127.0.0.1"), ("port", .int 4724)])]) ∧
      configGet
        (.dict [("appium",
          .dict [("host", .str "127.0.0.1"), ("port", .int 4724)])])
        "appium.port" .null = .int 4724 ∧
      configGet
        (.dict [("appium",
          .dict [("host", .str "127.0.0.1"), ("port", .int 4724)])])
        "appium.host" .null = .str "127.0.0.1") := by
  refine ⟨mergeConfig_lookup_not_mem, mergeConfig_lookup_found,
    mergeConfig_scalar_base_error, rfl, ?_, rfl, rfl⟩
  simp [mergeConfig, keyIn, getItem, setItem, lookup, setItemList]

/-- Witness for C1 at concrete inputs: the TypeError case fires on a
scalar base with a non-empty mapping overlay, and a sibling key of the
base survives the example merge unchanged. -/
theorem C1_merge_config_amended_witness :
    mergeConfig (.int 1) [("b", .int 2)] = .error .typeError ∧
    lookup [("appium",
        Value.dict [("host", .str "127.0.0.1"), ("port", .int 4724)]),
      ("timeout", Value.int 5)] "timeout" = some (.int 5) := by
  have herr : mergeConfig (.int 1) [("b", .int 2)] = .error .typeError :=
    C1_merge_config_amended.2.2.1 (.int 1) [("b", .int 2)]
      (fun d h => nomatch h) (List.cons_ne_nil _ _)
  have hmerge : mergeConfig
      (.dict [("appium",
        .dict [("host", .str "127.0.0.1"), ("port", .int 4723)]),
        ("timeout", .int 5)])
      [("appium", .dict [("port", .int 4724)])] =
      .ok (.dict [("appium",
        .dict [("host", .str "127.0.0.1"), ("port", .int 4724)]),
        ("timeout", .int 5)]) := by
    simp [mergeConfig, keyIn, getItem, setItem, lookup, setItemList]
  obtain ⟨l', hm, hpr⟩ := C1_merge_config_amended.1
    [("appium", .dict [("port", .int 4724)])]
    [("appium", .dict [("host", .str "127.0.0.1"), ("port", .int 4723)]),
      ("timeout", .int 5)]
    _ "timeout" (by decide) hmerge
  cases hm
  exact ⟨herr, hpr.trans rfl⟩

/-- Claim C5: the merge is idempotent on the success path — for every
base and every well-formed overlay mapping (pairwise-distinct keys at
every nesting level, as any Python dict has), if merging the overlay into
the base succeeds with result m, merging the same overlay into m again
succeeds and returns m unchanged. -/
theorem C5_merge_idempotent :
    ∀ (base : Value) (ov : List (String × Value)) (m : Value),
      wfl ov = true → mergeConfig base ov = .ok m →
      mergeConfig m ov = .ok m :=
  fun base ov m hwf hm =>
    mergeConfig_idem_aux (sizeOf ov + 1) ov (Nat.lt_succ_self _) base m hwf hm

/-- Witness for C5 on the appium example overlay. -/
theorem C5_merge_idempotent_witness :
    wfl [("appium", Value.dict [("port", Value.int 4724)])] = true ∧
    mergeConfig
        (.dict [("appium",
          .dict [("host", .str "127.0.0.1"), ("port", .int 4723)])])
        [("appium", .dict [("port", .int 4724)])] =
      .ok (.dict [("appium",
        .dict [("host", .str "127.0.0.1"), ("port", .int 4724)])]) ∧
    mergeConfig
        (.dict [("appium",
          .dict [("host", .str "127.0.0.1"), ("port", .int 4724)])])
        [("appium", .dict [("port", .int 4724)])] =
      .ok (.dict [("appium",
        .dict [("host", .str "127.0.0.1"), ("port", .int 4724)])]) := by
  have hwf : wfl [("appium", Value.dict [("port", Value.int 4724)])]
      = true := by
    simp [wfl, wfv]
  have hm : mergeConfig
      (.dict [("appium",
        .dict [("host", .str "127.0.0.1"), ("port", .int 4723)])])
      [("appium", .dict [("port", .int 4724)])] =
      .ok (.dict [("appium",
        .dict [("host", .str "127.0.0.1"), ("port", .int 4724)])]) := by
    simp [mergeConfig, keyIn, getItem, setItem, lookup, setItemList]
  exact ⟨hwf, hm, C5_merge_idempotent _ _ _ hwf hm⟩

/-- Claim C2: in both start_android_driver and start_ios_driver, every
key present in the caller-supplied overrides wins key-by-key (no recursive
merge) in the assembled capability set over the same-named key of the
defaults layer (built-ins underneath configuration values), and every
default key absent from the overrides is left untouched. -/
theorem C2_capability_overrides :
    ∀ (cfg : Value) (apx : Bool) (ov dfltA dfltI : List (String × Value)),
      (ov.map Prod.fst).Nodup →
      buildAndroidDefaultCaps cfg apx = .ok dfltA →
      buildIosDefaultCaps cfg apx = .ok dfltI →
      assembleAndroidCaps cfg apx (some ov) =
        .ok (applyOverrides dfltA (some ov)) ∧
      assembleIosCaps cfg apx (some ov) =
        .ok (applyOverrides dfltI (some ov)) ∧
      (∀ k v, lookup ov k = some v →
        lookup (applyOverrides dfltA (some ov)) k = some v ∧
        lookup (applyOverrides dfltI (some ov)) k = some v) ∧
      (∀ k, lookup ov k = none →
        lookup (applyOverrides dfltA (some ov)) k = lookup dfltA k ∧
        lookup (applyOverrides dfltI (some ov)) k = lookup dfltI k) := by
  intro cfg apx ov dfltA dfltI hnd hA hI
  have hasmA : assembleAndroidCaps cfg apx (some ov) =
      .ok (applyOverrides dfltA (some ov)) := by
    rw [assembleAndroidCaps, hA]; rfl
  have hasmI : assembleIosCaps cfg apx (some ov) =
      .ok (applyOverrides dfltI (some ov)) := by
    rw [assembleIosCaps, hI]; rfl
  refine ⟨hasmA, hasmI, ?_, ?_⟩
  · intro k v hkv
    cases ov with
    | nil => simp [lookup] at hkv
    | cons p rest =>
      constructor
      · simpa [applyOverrides] using
          lookup_updateCaps_mem (p :: rest) dfltA k v hnd hkv
      · simpa [applyOverrides] using
          lookup_updateCaps_mem (p :: rest) dfltI k v hnd hkv
  · intro k hk
    have hnm : k ∉ (ov.map Prod.fst) := by
      intro hmem
      obtain ⟨⟨k₁, v₁⟩, hp, hfst⟩ := List.mem_map.mp hmem
      have : (lookup ov k).isSome := by
        rw [← anyKey_eq_isSome]
        exact List.any_eq_true.mpr ⟨(k₁, v₁), hp,
          by simp only [beq_iff_eq]; exact hfst⟩
      rw [hk] at this
      simp at this
    cases ov with
    | nil => exact ⟨by simp [applyOverrides], by simp [applyOverrides]⟩
    | cons p rest =>
      constructor
      · simpa [applyOverrides] using
          lookup_updateCaps_not_mem (p :: rest) dfltA k hnm
      · simpa [applyOverrides] using
          lookup_updateCaps_not_mem (p :: rest) dfltI k hnm

/-- Witness for C2: with an empty configuration and overrides that flip
noReset and add a fresh key, the override value wins for noReset, the
fresh key is present, and the untouched default platformVersion survives. -/
theorem C2_capability_overrides_witness :
    lookup (applyOverrides
      [("platformName", .str "Android"), ("platformVersion", .str "13"),
        ("deviceName", .str "Android Device"),
        ("automationName", .str "UiAutomator2"),
        ("appPackage", .str ""), ("appActivity", .str ""),
        ("noReset", .bool true), ("fullReset", .bool false),
        ("unicodeKeyboard", .bool true), ("resetKeyboard", .bool true),
        ("newCommandTimeout", .int 300)]
      (some [("noReset", .bool false), ("newKey", .str "x")]))
      "noReset" = some (.bool false) ∧
    lookup (applyOverrides
      [("platformName", .str "Android"), ("platformVersion", .str "13"),
        ("deviceName", .str "Android Device"),
        ("automationName", .str "UiAutomator2"),
        ("appPackage", .str ""), ("appActivity", .str ""),
        ("noReset", .bool true), ("fullReset", .bool false),
        ("unicodeKeyboard", .bool true), ("resetKeyboard", .bool true),
        ("newCommandTimeout", .int 300)]
      (some [("noReset", .bool false), ("newKey", .str "x")]))
      "platformVersion" = some (.str "13") := by
  have h := C2_capability_overrides (.dict []) false
    [("noReset", .bool false), ("newKey", .str "x")]
    [("platformName", .str "Android"), ("platformVersion", .str "13"),
      ("deviceName", .str "Android Device"),
      ("automationName", .str "UiAutomator2"),
      ("appPackage", .str ""), ("appActivity", .str ""),
      ("noReset", .bool true), ("fullReset", .bool false),
      ("unicodeKeyboard", .bool true), ("resetKeyboard", .bool true),
      ("newCommandTimeout", .int 300)]
    [("platformName", .str "iOS"), ("platformVersion", .str "16.0"),
      ("deviceName", .str "iPhone"), ("automationName", .str "XCUITest"),
      ("bundleId", .str ""), ("noReset", .bool true),
      ("fullReset", .bool false), ("newCommandTimeout", .int 300)]
    (by decide) (by rfl) (by rfl)
  exact ⟨(h.2.2.1 "noReset" (.bool false) (by rfl)).1,
    (h.2.2.2 "platformVersion" (by rfl)).1⟩

/-- Claim C8 counterexample: is_element_present propagates a
WebDriverException raised by the underlying find instead of returning a
sentinel False, refuting the claim that every listed element operation
converts any exception into a sentinel value. -/
theorem C8_sentinel_counterexample :
    isElementPresent (.error .webDriverError) = .error .webDriverError ∧
    isElementPresent (.error .webDriverError) ≠ .ok false := by
  refine ⟨rfl, by intro h; cases h⟩

/-- Claim C8 as amended: find_element, find_elements, click, send_keys,
get_text, get_attribute, swipe, scroll_down and scroll_up convert any
exception or timeout into their sentinel values (None, empty list, False,
empty string, no escaping exception); but the visibility/clickability
waits return False only for a TimeoutException and propagate every other
exception, and the presence checks return False only for
NoSuchElementException and propagate every other exception; and
scroll_to_element, which has no exception handler of its own, returns True
as soon as a scroll cycle finds the element and False once max_scrolls
cycles are exhausted, but propagates any exception escaping its presence
check (that is, any non-NoSuchElementException from the underlying
find). -/
theorem C8_sentinel_amended :
    (∀ e, findElement (.error e) = none) ∧
    (∀ e, findElements (.error e) = []) ∧
    (∀ e f a, click (.error e) f a = false) ∧
    (∀ w e a, click w (.error e) a = false) ∧
    (∀ w f e, click w f (.error e) = false) ∧
    (∀ e c cc sc, sendKeys (.error e) c cc sc = false) ∧
    (∀ f e sc, sendKeys f true (.error e) sc = false) ∧
    (∀ f c cc e, sendKeys f c cc (.error e) = false) ∧
    (∀ e t, getText (.error e) t = "") ∧
    (∀ f e, getText f (.error e) = "") ∧
    (∀ e a, getAttribute (.error e) a = "") ∧
    (∀ f e, getAttribute f (.error e) = "") ∧
    (∀ c, swipeEscapes c = none) ∧
    waitForElementVisible (.error .timeoutException) = .ok false ∧
    (∀ e, e ≠ .timeoutException →
      waitForElementVisible (.error e) = .error e) ∧
    waitForElementClickable (.error .timeoutException) = .ok false ∧
    (∀ e, e ≠ .timeoutException →
      waitForElementClickable (.error e) = .error e) ∧
    isElementPresent (.error .noSuchElement) = .ok false ∧
    (∀ e, e ≠ .noSuchElement → isElementPresent (.error e) = .error e) ∧
    (∀ d, isElementVisible (.error .noSuchElement) d = .ok false) ∧
    (∀ e d, e ≠ .noSuchElement → isElementVisible (.error e) d = .error e) ∧
    (∀ gs, scrollDownEscapes gs = none) ∧
    (∀ gs, scrollUpEscapes gs = none) ∧
    scrollToElement [] = .ok false ∧
    (∀ n, scrollToElement (List.replicate n (.error .noSuchElement)) =
      .ok false) ∧
    (∀ f rest, scrollToElement (.ok f :: rest) = .ok true) ∧
    (∀ rest, scrollToElement (.error .noSuchElement :: rest) =
      scrollToElement rest) ∧
    (∀ e rest, e ≠ .noSuchElement →
      scrollToElement (.error e :: rest) = .error e) := by
  refine ⟨fun e => rfl, fun e => rfl, ?_, ?_, ?_, ?_, ?_, ?_, ?_, ?_, ?_, ?_,
    ?_, rfl, ?_, rfl, ?_, rfl, ?_, fun d => rfl, ?_, ?_, ?_, rfl, ?_,
    fun f rest => rfl, fun rest => rfl, ?_⟩
  · intro e f a; cases e <;> rfl
  · intro w e a
    cases w with
    | ok u => rfl
    | error we => cases we <;> rfl
  · intro w f e
    cases w with
    | ok u =>
      cases f with
      | ok el => rfl
      | error fe => rfl
    | error we => cases we <;> rfl
  · intro e c cc sc; rfl
  · intro f e sc
    cases f with
    | ok el => rfl
    | error fe => rfl
  · intro f c cc e
    cases f with
    | ok el =>
      cases c with
      | true =>
        cases cc with
        | ok u => rfl
        | error ce => rfl
      | false => rfl
    | error fe => rfl
  · intro e t; rfl
  · intro f e
    cases f with
    | ok el => rfl
    | error fe => rfl
  · intro e a; rfl
  · intro f e
    cases f with
    | ok el => rfl
    | error fe => rfl
  · intro c
    cases c with
    | ok u => rfl
    | error e => rfl
  · intro e he; cases e <;> first | exact absurd rfl he | rfl
  · intro e he; cases e <;> first | exact absurd rfl he | rfl
  · intro e he; cases e <;> first | exact absurd rfl he | rfl
  · intro e d he; cases e <;> first | exact absurd rfl he | rfl
  · intro gs
    cases gs with
    | ok sz => rfl
    | error e => rfl
  · intro gs
    cases gs with
    | ok sz => rfl
    | error e => rfl
  · intro n
    induction n with
    | zero => rfl
    | succ n ih => rw [List.replicate_succ]; exact ih
  · intro e rest he; cases e <;> first | exact absurd rfl he | rfl

/-- Witness for C8 at concrete inputs: the visibility wait propagates a
concrete non-timeout exception, scroll_to_element propagates a concrete
non-NoSuchElementException and returns False after exhausting ten
element-not-found cycles, and the find/click operations return their
sentinels for a concrete exception. -/
theorem C8_sentinel_amended_witness :
    waitForElementVisible (.error .webDriverError) = .error .webDriverError ∧
    isElementVisible (.error .genericError) (.ok true) =
      .error .genericError ∧
    findElement (.error .timeoutException) = none ∧
    click (.error .webDriverError) (.ok 1) (.ok ()) = false ∧
    scrollToElement [.error .webDriverError] = .error .webDriverError ∧
    scrollToElement (List.replicate 10 (.error .noSuchElement)) =
      .ok false := by
  obtain ⟨h1, _, h3, _, _, _, _, _, _, _, _, _, _, _, h15, _, _, _, _, _,
    h21, _, _, _, h25, _, _, h28⟩ := C8_sentinel_amended
  exact ⟨h15 .webDriverError (by decide),
    h21 .genericError (.ok true) (by decide),
    h1 .timeoutException,
    h3 .webDriverError (.ok 1) (.ok ()),
    h28 .webDriverError [] (by decide),
    h25 10⟩

/-- Witness for C10 at a concrete active-session state with a failing
quit call. -/
theorem C10_quit_driver_resets_witness :
    (quitDriver ⟨some 3, some 3⟩ (some .webDriverError)).driver = none ∧
    (quitDriver ⟨some 3, some 3⟩ (some .webDriverError)).wait = none ∧
    isDriverAlive (quitDriver ⟨some 3, some 3⟩ (some .webDriverError))
      (.ok "page") = false :=
  C10_quit_driver_resets ⟨some 3, some 3⟩ (some .webDriverError) (.ok "page")
    (by intro h; exact absurd h (by decide))

end MobileAuto
